import Mathlib

/-!
Verification of the T11 session-authentication layer.

The development shallowly embeds the two source files:

* `src/backend/index.js` — the CORS origin gate (`sanitizeOrigin`,
  `configuredOrigins`, `allowedOrigins`, `allowAllOrigins` and the
  `cors` origin callback).
* `src/frontend/src/contexts/AuthContext.jsx` — the session provider
  (`resolveBackendUrl`, `buildApiUrl`, `fetchCurrentUser`, the restore
  `useEffect`, `login`, `logout`).

JavaScript strings are modelled as Lean `String`; values that may be
`undefined` (environment variables, the `Origin` request header,
`localStorage.getItem` results, optional JSON fields) are modelled as
`Option String`.  Network interaction is modelled by passing the outcome
of each fetch as an explicit oracle argument: a fetch either rejects at
the transport level, returns a non-success response (whose body may or
may not contain a parsable `message` string), or returns a success
response with a parsed body.  Client-observable effects (the `user`
state, the durable `"token"` entry of `localStorage`, `navigate` calls,
and issued requests) are collected in an explicit `ClientState` record.
-/

namespace T11

/-! Section: JavaScript string primitives. -/

/-- Whitespace characters removed by JavaScript `String.prototype.trim`
(the ASCII ones, which are the only ones relevant here). -/
def isJsWhitespace (c : Char) : Bool :=
  c == ' ' || c == '\t' || c == '\n' || c == '\r' || c == '\x0b' || c == '\x0c'

/-- Model of JavaScript `s.trim()` on the character list. -/
def jsTrimList (l : List Char) : List Char :=
  ((l.dropWhile isJsWhitespace).reverse.dropWhile isJsWhitespace).reverse

/-- Model of JavaScript `s.trim()`. -/
def jsTrim (s : String) : String :=
  String.mk (jsTrimList s.data)

/-- Model of JavaScript `s.replace(/\/$/, "")`: remove exactly one
trailing slash when one is present. -/
def stripTrailingSlash (s : String) : String :=
  match s.data.reverse with
  | [] => s
  | c :: rest => if c == '/' then String.mk rest.reverse else s

/-- Does the string end with a slash (the guard of the `/\/$/` regex)? -/
def endsWithSlash (s : String) : Bool :=
  match s.data.reverse with
  | [] => false
  | c :: _ => c == '/'

/-- Model of JavaScript `path.startsWith("/")`. -/
def startsWithSlash (s : String) : Bool :=
  match s.data with
  | [] => false
  | c :: _ => c == '/'

/-- Remove one leading slash when one is present (used only to state the
"exactly one separating slash" property of `buildApiUrl`). -/
def dropLeadingSlash (s : String) : String :=
  match s.data with
  | [] => s
  | c :: rest => if c == '/' then String.mk rest else s

/-- Model of JavaScript `s.split(",")` on the character list.  As in
JavaScript, splitting the empty string yields `[[]]`. -/
def splitCommaList (l : List Char) : List (List Char) :=
  l.foldr
    (fun c acc =>
      if c == ',' then [] :: acc
      else
        match acc with
        | a :: rest => (c :: a) :: rest
        | [] => [[c]])
    [[]]

/-- Model of JavaScript `s.split(",")`. -/
def jsSplitComma (s : String) : List String :=
  (splitCommaList s.data).map String.mk

/-- Truthiness of a possibly-`undefined` JavaScript string: `undefined`
and the empty string are falsy (`!x` is `true` exactly on these). -/
def jsFalsy : Option String → Bool
  | none => true
  | some s => s == ""

/-- Model of `x || fallback` where `x` is a string: the empty string is
falsy and is replaced by the fallback. -/
def jsOrStr (s fallback : String) : String :=
  if s == "" then fallback else s

/-- Model of `x || fallback` where `x` is a possibly-absent string field
(`undefined` and `""` are both falsy). -/
def jsOrOpt (m : Option String) (fallback : String) : String :=
  match m with
  | some s => jsOrStr s fallback
  | none => fallback

/-! Section: backend origin gate (`src/backend/index.js`). -/

/-- `sanitizeOrigin` of `src/backend/index.js` (lines 15-21) restricted
to string inputs: `origin.trim().replace(/\/$/, "")`. -/
def sanitizeOrigin (s : String) : String :=
  stripTrailingSlash (jsTrim s)

/-- `sanitizeOrigin` on the value the `cors` callback receives, which is
`undefined` when the request carries no `Origin` header.  The
`typeof origin !== "string"` guard maps `undefined` to `""`. -/
def sanitizeOriginOpt : Option String → String
  | none => ""
  | some s => sanitizeOrigin s

/-- `DEFAULT_ALLOWED_ORIGINS` of `src/backend/index.js` (lines 8-13). -/
def DEFAULT_ALLOWED_ORIGINS : List String :=
  ["http://localhost:5173", "http://127.0.0.1:5173",
   "http://localhost:4173", "http://127.0.0.1:4173"]

/-- `configuredOrigins` (lines 23-26): `(process.env.FRONTEND_URL || "")`
split on commas, each entry sanitized, empty results discarded.  The
environment variable is the `Option String` argument. -/
def configuredOrigins (frontendUrl : Option String) : List String :=
  (((jsSplitComma (jsOrOpt frontendUrl "")).map sanitizeOrigin).filter
    (fun o => 0 < o.length))

/-- `defaultOrigins` (line 28). -/
def defaultOrigins : List String :=
  DEFAULT_ALLOWED_ORIGINS.map sanitizeOrigin

/-- `allowedOrigins` (line 29): the JavaScript `Set` is modelled by the
concatenated list, used only through membership. -/
def allowedOrigins (frontendUrl : Option String) : List String :=
  defaultOrigins ++ configuredOrigins frontendUrl

/-- `allowAllOrigins` (line 30): `configuredOrigins.length === 0`. -/
def allowAllOrigins (frontendUrl : Option String) : Bool :=
  (configuredOrigins frontendUrl).length == 0

/-- The `cors` origin callback (lines 36-44).  `Except.ok true` models
`callback(null, true)` (request admitted); `Except.error` models
`callback(new Error("Not allowed by CORS"))`, which terminates the
request before any route handler runs.  The `origin` argument is the
Origin header of the request, `none` when the header is absent; the
JavaScript test `!origin` is true both for `undefined` and for `""`. -/
def corsDecision (frontendUrl : Option String) (origin : Option String) :
    Except String Bool :=
  let normalizedOrigin := sanitizeOriginOpt origin
  if jsFalsy origin || allowAllOrigins frontendUrl ||
      (allowedOrigins frontendUrl).contains normalizedOrigin then
    Except.ok true
  else
    Except.error "Not allowed by CORS"

/-- Modelled from the spec (the wording of claim C3): admit when the request
carries no Origin header, or the gate is in allow-all mode, or the
normalized request origin is a member of the allow set.  This is the
claimed admission condition, to be compared with `corsDecision`. -/
def specAdmits (frontendUrl : Option String) (origin : Option String) : Bool :=
  origin.isNone || allowAllOrigins frontendUrl ||
    (allowedOrigins frontendUrl).contains (sanitizeOriginOpt origin)

/-- The amended admission condition: same as `specAdmits` except that a
present-but-empty `Origin` header is also admitted, matching the
JavaScript falsiness test `!origin`. -/
def specAdmitsAmended (frontendUrl : Option String) (origin : Option String) :
    Bool :=
  jsFalsy origin || allowAllOrigins frontendUrl ||
    (allowedOrigins frontendUrl).contains (sanitizeOriginOpt origin)

/-! Section: frontend session provider (`AuthContext.jsx`). -/

/-- The server-asserted identity record.  The client treats it as opaque
(only presence or absence matters), so any type with decidable equality
would do; a string keeps witnesses concrete. -/
abbrev Identity := String

/-- Client-observable state: the `user` React state, the `"token"` entry
of `localStorage` (`none` when the key is absent), the sequence of
destinations passed to `navigate`, and the sequence of request paths
handed to `fetch`. -/
structure ClientState where
  user : Option Identity
  storage : Option String
  navEvents : List String
  requests : List String
deriving DecidableEq, Repr

/-- Outcome of the `GET /user/me` fetch, as seen by `fetchCurrentUser`
(lines 45-60): a transport-level rejection (carrying the message of the thrown error),
a non-success response (`message` is the `message` field of the body, `none`
when the body is unparsable or has no such field), or a success response
with its parsed `user` field (`none` when the field is absent). -/
inductive MeOutcome where
  | netErr (msg : String)
  | httpErr (message : Option String)
  | success (user : Option Identity)
deriving DecidableEq, Repr

/-- Did the identity resolution fail (any of the non-success cases)? -/
def MeOutcome.isFailure : MeOutcome → Bool
  | .success _ => false
  | _ => true

/-- `fetchCurrentUser` (lines 45-60): on a non-ok response it throws
`new Error(errorBody.message || "Failed to fetch user")`; on success it
returns `data.user`.  `Except.error` carries the message of the thrown
error. -/
def fetchCurrentUser (resp : MeOutcome) : Except String (Option Identity) :=
  match resp with
  | .netErr m => Except.error m
  | .httpErr msg => Except.error (jsOrOpt msg "Failed to fetch user")
  | .success u => Except.ok u

/-- The continuations installed on the restore fetch (lines 71-82): the
`.then` branch writes `user` and the `.catch` branch clears the token
and `user`, each only when the `isSubscribed` flag is still set. -/
def restoreContinue (isSubscribed : Bool)
    (result : Except String (Option Identity)) (s : ClientState) :
    ClientState :=
  match result with
  | .ok u => if isSubscribed then { s with user := u } else s
  | .error _ =>
    if isSubscribed then { s with storage := none, user := none } else s

/-- The startup `useEffect` (lines 62-87).  `resp` is the oracle for the
`/user/me` fetch and `isSubscribed` the value of the liveness flag when
the fetch settles (`false` when the provider was torn down mid-flight).
A falsy stored token (absent key, or a stored empty string) short
circuits to `setUser(null)` without issuing a request.  Errors never
escape: the `.catch` swallows them, which is why the model returns a
plain `ClientState` with no error channel. -/
def restore (resp : MeOutcome) (isSubscribed : Bool) (s : ClientState) :
    ClientState :=
  match s.storage with
  | none => { s with user := none }
  | some tok =>
    if tok == "" then { s with user := none }
    else
      restoreContinue isSubscribed (fetchCurrentUser resp)
        { s with requests := s.requests ++ ["/user/me"] }

/-- Outcome of the `POST /login` fetch as seen by `login`: a
transport-level rejection (this also covers a `response.json()` that
rejects on the ok branch, which the outer `try` catches before any state
change), a non-success response with its optional `message`, or a
success response with its parsed `token` field. -/
inductive LoginOutcome where
  | netErr (msg : String)
  | httpErr (message : Option String)
  | okBody (token : Option String)
deriving DecidableEq, Repr

/-- `localStorage.setItem` stringifies its value: a missing `token`
field (`undefined`) is stored as the string "undefined". -/
def storedTokenValue : Option String → String
  | some t => t
  | none => "undefined"

/-- `login` (lines 109-135).  Returns the updated state and the string
result: the empty string on success, an error message otherwise. -/
def login (resp : LoginOutcome) (meResp : MeOutcome) (s : ClientState) :
    ClientState × String :=
  let s0 := { s with requests := s.requests ++ ["/login"] }
  match resp with
  | .netErr m => (s0, jsOrStr m "Failed to login")
  | .httpErr msg => (s0, jsOrOpt msg "Failed to login")
  | .okBody token =>
    let s1 := { s0 with storage := some (storedTokenValue token) }
    let s2 := { s1 with requests := s1.requests ++ ["/user/me"] }
    match fetchCurrentUser meResp with
    | .error m => (s2, jsOrStr m "Failed to login")
    | .ok u =>
      ({ s2 with user := u, navEvents := s2.navEvents ++ ["/profile"] }, "")

/-- `logout` (lines 94-99): remove the token, clear `user`, navigate to
the root.  No fetch is involved. -/
def logout (s : ClientState) : ClientState :=
  { s with storage := none, user := none, navEvents := s.navEvents ++ ["/"] }

/-! Section: backend address resolution (`AuthContext.jsx` lines 6-28). -/

/-- `resolveBackendUrl` (lines 6-18).  `envUrl` models
`import.meta.env.VITE_BACKEND_URL` and `windowOrigin` models
`window.location?.origin` (with `none` covering both an undefined
`window` and an unavailable origin); both gates are JavaScript
truthiness tests. -/
def resolveBackendUrl (envUrl windowOrigin : Option String) : String :=
  if !jsFalsy envUrl && 0 < (jsTrim (jsOrOpt envUrl "")).length then
    stripTrailingSlash (jsTrim (jsOrOpt envUrl ""))
  else if !jsFalsy windowOrigin then
    jsOrOpt windowOrigin ""
  else
    "http://localhost:3000"

/-- `buildApiUrl` (lines 22-28), with the resolved base made an explicit
argument. -/
def buildApiUrl (base path : String) : String :=
  if startsWithSlash path then base ++ path else base ++ "/" ++ path

/-- Second stage of the priority order of the spec: the browser origin when
a non-empty one is available, else the fixed local fallback. -/
def specBrowserOrFallback : Option String → String
  | some w => if w ≠ "" then w else "http://localhost:3000"
  | none => "http://localhost:3000"

/-- Modelled from the spec (the wording of claim C6): the base resolved in
priority order — the configured URL trimmed and with exactly one
trailing slash stripped when the trimmed value is non-empty, else the
browser origin when available (an empty origin counts as unavailable),
else the fixed local fallback. -/
def specResolvedBase (envUrl windowOrigin : Option String) : String :=
  match envUrl with
  | some s =>
    if jsTrim s ≠ "" then stripTrailingSlash (jsTrim s)
    else specBrowserOrFallback windowOrigin
  | none => specBrowserOrFallback windowOrigin

/-! Section: helper lemmas. -/

/-- The data of the one-character slash string. -/
theorem slash_data : ("/" : String).data = ['/'] := rfl

/-- A string built from a character list is empty exactly when the list
is empty. -/
theorem mk_eq_empty_iff (l : List Char) : String.mk l = "" ↔ l = [] := by
  constructor
  · intro h
    have := congrArg String.data h
    simpa using this
  · intro h; subst h; rfl

/-- `buildApiUrl` always produces the base, one slash, and the path
stripped of its optional leading slash. -/
theorem buildApiUrl_property (base p : String) :
    buildApiUrl base p = base ++ "/" ++ dropLeadingSlash p := by
  cases p with
  | mk l =>
    cases l with
    | nil => rfl
    | cons c rest =>
      show buildApiUrl base (String.mk (c :: rest)) = _
      by_cases h : c = '/'
      · subst h
        apply String.ext
        simp [buildApiUrl, startsWithSlash, dropLeadingSlash,
          String.data_append, slash_data]
      · have hb : (c == '/') = false := by simp [h]
        simp [buildApiUrl, startsWithSlash, dropLeadingSlash, hb]

/-- With no usable configured URL, `resolveBackendUrl` returns the
browser origin when a non-empty one is available, else the fixed
fallback. -/
theorem resolve_window (w : Option String) :
    resolveBackendUrl none w = specBrowserOrFallback w := by
  cases w with
  | none => rfl
  | some v =>
    by_cases hv : v = ""
    · subst hv; rfl
    · have h1 : (v == "") = false := by simp [hv]
      simp [resolveBackendUrl, jsFalsy, jsOrOpt, jsOrStr, h1,
        specBrowserOrFallback, hv]

/-- `resolveBackendUrl` agrees with the priority order described by the
spec on every input. -/
theorem resolve_eq_spec (e w : Option String) :
    resolveBackendUrl e w = specResolvedBase e w := by
  cases e with
  | none => exact resolve_window w
  | some s =>
    by_cases hs : s = ""
    · subst hs
      exact resolve_window w
    · have h1 : (s == "") = false := by simp [hs]
      by_cases ht : jsTrimList s.data = []
      · have h2 : jsTrim s = "" := by simp [jsTrim, mk_eq_empty_iff, ht]
        have hcond : (!jsFalsy (some s) &&
            decide (0 < (jsTrim (jsOrOpt (some s) "")).length)) = false := by
          simp [jsFalsy, jsOrOpt, jsOrStr, h1, hs, String.length, jsTrim, ht]
        show resolveBackendUrl (some s) w = specResolvedBase (some s) w
        rw [resolveBackendUrl]
        rw [hcond]
        show resolveBackendUrl none w = specResolvedBase (some s) w
        rw [resolve_window w, specResolvedBase]
        simp [h2, specBrowserOrFallback]
      · have h2 : jsTrim s ≠ "" := by simp [jsTrim, mk_eq_empty_iff, ht]
        have h3 : (0 < (jsTrim s).length) := by
          simp only [jsTrim, String.length]
          exact List.length_pos.mpr ht
        have hcond : (!jsFalsy (some s) &&
            decide (0 < (jsTrim (jsOrOpt (some s) "")).length)) = true := by
          simp [jsFalsy, jsOrOpt, jsOrStr, h1, hs, h3]
        rw [resolveBackendUrl]
        rw [hcond]
        rw [specResolvedBase]
        simp [h2, jsOrOpt, jsOrStr, h1, hs]

/-- Stripping a trailing slash from a string that does not end in a
slash does nothing. -/
theorem stripTrailingSlash_id (s : String) (h : endsWithSlash s = false) :
    stripTrailingSlash s = s := by
  rw [stripTrailingSlash]
  rw [endsWithSlash] at h
  cases hr : s.data.reverse with
  | nil => rfl
  | cons c rest =>
    have h2 : (c == '/') = false := by rw [hr] at h; simpa using h
    simp [h2]

/-- A JavaScript `||` with a non-empty fallback never yields the empty
string. -/
theorem jsOrStr_ne (s fb : String) (h : fb ≠ "") : jsOrStr s fb ≠ "" := by
  rw [jsOrStr]
  by_cases hs : s = "" <;> simp [hs, h]

/-! Section: claim theorems. -/

/-- Claim C1: when the login POST succeeds with a token in the body and
the subsequent identity resolution succeeds, `login` returns the empty
string, persists the returned token in durable storage, sets the session
identity to the resolved identity, and navigates to "/profile". -/
theorem login_valid_credentials_success (tok : String) (u : Option Identity)
    (s : ClientState) :
    login (LoginOutcome.okBody (some tok)) (MeOutcome.success u) s =
      ({ user := u, storage := some tok,
         navEvents := s.navEvents ++ ["/profile"],
         requests := s.requests ++ ["/login", "/user/me"] }, "") := by
  simp [login, storedTokenValue, fetchCurrentUser]

/-- Claim C2: when a (non-falsy) durable token is present at startup and
the identity resolution fails in any way, `restore` leaves the identity
absent and removes the durable token.  No error reaches the caller: the
model of `restore` returns a plain state with no error channel, exactly
as the `.catch` in the source swallows every failure. -/
theorem restore_rejected_token_self_heals (resp : MeOutcome) (tok : String)
    (s : ClientState) (hs : s.storage = some tok) (htok : tok ≠ "")
    (hfail : resp.isFailure = true) :
    restore resp true s =
      { s with user := none, storage := none,
               requests := s.requests ++ ["/user/me"] } := by
  rw [restore, hs]
  have hb : (tok == "") = false := by simp [htok]
  simp only [hb, Bool.false_eq_true, if_false]
  cases resp with
  | netErr m => rfl
  | httpErr m => rfl
  | success u => simp [MeOutcome.isFailure] at hfail

/-- Witness for claim C2 at a concrete rejected token. -/
theorem restore_rejected_token_self_heals_witness :
    (MeOutcome.httpErr (some "Unauthorized")).isFailure = true ∧
    restore (MeOutcome.httpErr (some "Unauthorized")) true
        { user := some "alice", storage := some "stale",
          navEvents := [], requests := [] } =
      { user := none, storage := none,
        navEvents := [], requests := ["/user/me"] } :=
  ⟨rfl,
    restore_rejected_token_self_heals (MeOutcome.httpErr (some "Unauthorized"))
      "stale" _ rfl (by decide) rfl⟩

/-- Claim C3, counterexample: with a configured allow-list
(FRONTEND_URL set to "http://a.com") the gate is not in allow-all mode
and the normalized empty origin is not in the allow set, yet a request
whose Origin header is present but empty is admitted, because the
JavaScript test `!origin` also fires on the empty string.  The claim as
stated requires such a request to be rejected. -/
theorem cors_empty_origin_counterexample :
    corsDecision (some "http://a.com") (some "") = Except.ok true ∧
    specAdmits (some "http://a.com") (some "") = false ∧
    allowAllOrigins (some "http://a.com") = false ∧
    (allowedOrigins (some "http://a.com")).contains
      (sanitizeOriginOpt (some "")) = false :=
  ⟨rfl, by decide, by decide, by decide⟩

/-- Claim C3, amended: the gate admits a request exactly when the Origin
header is absent or empty, or the configured list (entries that
normalize to empty discarded) is empty (allow-all mode), or the
normalized origin belongs to the union of normalized default and
configured origins; otherwise it rejects with "Not allowed by CORS". -/
theorem cors_admission_decision (fu origin : Option String) :
    corsDecision fu origin =
      if origin = none ∨ origin = some "" ∨ configuredOrigins fu = [] ∨
          sanitizeOriginOpt origin ∈ allowedOrigins fu
      then Except.ok true
      else Except.error "Not allowed by CORS" := by
  rw [corsDecision]
  refine if_congr ?_ rfl rfl
  rw [Bool.or_eq_true, Bool.or_eq_true]
  constructor
  · rintro ((h | h) | h)
    · cases origin with
      | none => exact Or.inl rfl
      | some v =>
        simp only [jsFalsy, beq_iff_eq] at h
        exact Or.inr (Or.inl (by rw [h]))
    · rw [allowAllOrigins, Nat.beq_eq_true_eq, List.length_eq_zero] at h
      exact Or.inr (Or.inr (Or.inl h))
    · exact Or.inr (Or.inr (Or.inr (List.elem_iff.mp h)))
  · rintro (h | h | h | h)
    · subst h; exact Or.inl (Or.inl rfl)
    · subst h; exact Or.inl (Or.inl (by rfl))
    · refine Or.inl (Or.inr ?_)
      rw [allowAllOrigins, h]
      rfl
    · exact Or.inr (List.elem_iff.mpr h)

/-- Claim C4, counterexample: the server returns a non-success response
whose body carries the (present) message `""`; the claim then requires
`login` to return that server-supplied message, but the code returns the
fallback because `errorBody.message || "Failed to login"` treats the
empty string as absent. -/
theorem login_empty_message_counterexample :
    (login (LoginOutcome.httpErr (some "")) (MeOutcome.success none)
        { user := none, storage := none, navEvents := [], requests := [] }).2 =
      "Failed to login" ∧
    "Failed to login" ≠ "" :=
  ⟨rfl, by decide⟩

/-- Claim C4, amended: on a non-success login response, `login` returns
the server-supplied message when it is present and non-empty, otherwise
the fixed fallback "Failed to login"; the identity, the durable token
and the navigation history are unchanged (only the request log grows by
the login POST). -/
theorem login_http_error_result (msg : Option String) (meResp : MeOutcome)
    (s : ClientState) :
    login (LoginOutcome.httpErr msg) meResp s =
      ({ s with requests := s.requests ++ ["/login"] },
        match msg with
        | some m => if m ≠ "" then m else "Failed to login"
        | none => "Failed to login") := by
  cases msg with
  | none => rfl
  | some m =>
    by_cases hm : m = "" <;> simp [login, jsOrOpt, jsOrStr, hm]

/-- Claim C5: from every starting state, `logout` removes the durable
token, clears the identity, navigates to the root destination and makes
no network call; a second `logout` performs the same steps, leaving the
session state (identity and token) unchanged. -/
theorem logout_clears_session_and_navigates_root (s : ClientState) :
    logout s = { user := none, storage := none,
                 navEvents := s.navEvents ++ ["/"],
                 requests := s.requests } ∧
    (logout (logout s)).user = (logout s).user ∧
    (logout (logout s)).storage = (logout s).storage ∧
    (logout (logout s)).navEvents = (logout s).navEvents ++ ["/"] :=
  ⟨rfl, rfl, rfl, rfl⟩

/-- Claim C6: every request URL is the resolved base, exactly one
separating slash, and the path stripped of its optional leading slash;
and the base follows the priority order configured URL (trimmed, one
trailing slash stripped, when the trimmed value is non-empty), then
browser origin, then the fixed local fallback. -/
theorem api_url_base_resolution_and_single_slash_join
    (envUrl windowOrigin : Option String) (path : String) :
    buildApiUrl (resolveBackendUrl envUrl windowOrigin) path =
      specResolvedBase envUrl windowOrigin ++ "/" ++ dropLeadingSlash path := by
  rw [resolve_eq_spec, buildApiUrl_property]

/-- Claim C7, counterexample: origin normalization is not idempotent on
every input — on "http://example.com//" the first application strips one
slash and the second strips another, so normalizing the already
normalized value differs from normalizing once. -/
theorem sanitizeOrigin_double_apply_counterexample :
    sanitizeOrigin (sanitizeOrigin "http://example.com//") ≠
      sanitizeOrigin "http://example.com//" := by decide

/-- Claim C7, amended: normalization is idempotent on every input whose
normalized value is already trimmed and does not end in a slash; in
particular "http://example.com/" and "http://example.com" normalize to
the same value. -/
theorem sanitizeOrigin_idempotent_on_normalized (s : String)
    (h1 : jsTrim (sanitizeOrigin s) = sanitizeOrigin s)
    (h2 : endsWithSlash (sanitizeOrigin s) = false) :
    sanitizeOrigin (sanitizeOrigin s) = sanitizeOrigin s ∧
    sanitizeOrigin "http://example.com/" = sanitizeOrigin "http://example.com" :=
  ⟨by rw [sanitizeOrigin, h1, stripTrailingSlash_id _ h2], by decide⟩

/-- Witness for the amended claim C7 at a concrete input. -/
theorem sanitizeOrigin_idempotent_on_normalized_witness :
    (jsTrim (sanitizeOrigin "http://example.com/") =
        sanitizeOrigin "http://example.com/" ∧
      endsWithSlash (sanitizeOrigin "http://example.com/") = false) ∧
    (sanitizeOrigin (sanitizeOrigin "http://example.com/") =
        sanitizeOrigin "http://example.com/" ∧
      sanitizeOrigin "http://example.com/" =
        sanitizeOrigin "http://example.com") :=
  ⟨⟨by decide, by decide⟩,
    sanitizeOrigin_idempotent_on_normalized "http://example.com/"
      (by decide) (by decide)⟩

/-- Claim C8: once the owning context has signalled teardown (the
liveness flag is false), neither the success continuation nor the
failure continuation of the restore fetch mutates anything: the state is
returned untouched, so no identity write and no token deletion happens
after teardown. -/
theorem restore_teardown_writes_nothing
    (result : Except String (Option Identity)) (s : ClientState) :
    restoreContinue false result s = s := by
  cases result <;> rfl

/-- Claim C9: when no durable token exists, `restore` only clears the
identity: the durable store, the navigation history and, in particular,
the list of issued requests are untouched, so no network request is
made. -/
theorem restore_without_token_no_request (resp : MeOutcome)
    (isSubscribed : Bool) (s : ClientState) (hs : s.storage = none) :
    restore resp isSubscribed s = { s with user := none } := by
  rw [restore, hs]

/-- Witness for claim C9 at a concrete state with no stored token. -/
theorem restore_without_token_no_request_witness :
    ({ user := some "alice", storage := none, navEvents := [],
       requests := [] } : ClientState).storage = none ∧
    restore (MeOutcome.netErr "network down") true
        { user := some "alice", storage := none, navEvents := [],
          requests := [] } =
      { user := none, storage := none, navEvents := [], requests := [] } :=
  ⟨rfl, restore_without_token_no_request (MeOutcome.netErr "network down")
    true _ rfl⟩

/-- Claim C10: when the login POST succeeds with a token but the
follow-up identity resolution fails, `login` returns a non-empty error
string, the freshly stored token is left behind in durable storage (no
rollback), the identity is unchanged, and no navigation occurs. -/
theorem login_identity_failure_keeps_stored_token (tok : String)
    (resp : MeOutcome) (s : ClientState) (hfail : resp.isFailure = true) :
    (login (LoginOutcome.okBody (some tok)) resp s).2 ≠ "" ∧
    (login (LoginOutcome.okBody (some tok)) resp s).1.storage = some tok ∧
    (login (LoginOutcome.okBody (some tok)) resp s).1.user = s.user ∧
    (login (LoginOutcome.okBody (some tok)) resp s).1.navEvents =
      s.navEvents := by
  cases resp with
  | netErr m =>
    exact ⟨jsOrStr_ne m "Failed to login" (by decide), rfl, rfl, rfl⟩
  | httpErr m =>
    exact ⟨jsOrStr_ne _ "Failed to login" (by decide), rfl, rfl, rfl⟩
  | success u => simp [MeOutcome.isFailure] at hfail

/-- Witness for claim C10 at a concrete failing identity resolution. -/
theorem login_identity_failure_keeps_stored_token_witness :
    (MeOutcome.httpErr (some "Unauthorized")).isFailure = true ∧
    ((login (LoginOutcome.okBody (some "newtok"))
        (MeOutcome.httpErr (some "Unauthorized"))
        { user := none, storage := none, navEvents := [],
          requests := [] }).2 ≠ "" ∧
      (login (LoginOutcome.okBody (some "newtok"))
        (MeOutcome.httpErr (some "Unauthorized"))
        { user := none, storage := none, navEvents := [],
          requests := [] }).1.storage = some "newtok" ∧
      (login (LoginOutcome.okBody (some "newtok"))
        (MeOutcome.httpErr (some "Unauthorized"))
        { user := none, storage := none, navEvents := [],
          requests := [] }).1.user = none ∧
      (login (LoginOutcome.okBody (some "newtok"))
        (MeOutcome.httpErr (some "Unauthorized"))
        { user := none, storage := none, navEvents := [],
          requests := [] }).1.navEvents = []) :=
  ⟨rfl, login_identity_failure_keeps_stored_token "newtok"
    (MeOutcome.httpErr (some "Unauthorized")) _ rfl⟩

end T11
